import Mathlib

/-!
Shallow embedding of the compliance reconciliation and filtering logic of the
CloudWatch Config compliance widgets, translated from
`src/lambda/configRulesWidget.js` (handler, `processConfigData`,
`generateRuleItemHTML`) and `src/lambda/configComplianceWidget.js`
(`getDetailedComplianceData`, `generateComplianceSummaryHTML`,
`generateRuleSummaryItemHTML`).

JS objects used as dictionaries (`complianceMap`) are embedded as functions
`String → Option ComplianceCount`; sequential `forEach` assignment becomes a
left fold that overwrites the map at the assigned key.  JS falsy defaulting
(`x || 0`, `x || []`, `compliance = compliance || {...}`) is embedded as
`Option.getD`.  Counts are natural numbers.
-/

namespace ConfigWidgets

/-- Resource-compliance counts for one rule, the value type of `complianceMap`
(configRulesWidget.js lines 71-78). -/
structure ComplianceCount where
  CompliantResourceCount : Nat
  NonCompliantResourceCount : Nat
  TotalResourceCount : Nat
deriving DecidableEq

/-- The `ComplianceSummary` member of one element of
`complianceResponse.ComplianceSummaryByConfigRule`; `none` fields model absent
JS fields defaulted by `|| 0`. -/
structure ComplianceSummary where
  CompliantResourceCount : Option Nat
  NonCompliantResourceCount : Option Nat
  TotalResourceCount : Option Nat
deriving DecidableEq

/-- One element of `complianceResponse.ComplianceSummaryByConfigRule`. -/
structure ComplianceByRuleItem where
  ConfigRuleName : String
  ComplianceSummary : ComplianceSummary
deriving DecidableEq

/-- The `Scope` member of a Config rule; `ComplianceResourceTypes` may be
absent (`none`) or an explicit (possibly empty) list. -/
structure Scope where
  ComplianceResourceTypes : Option (List String)
deriving DecidableEq

/-- A Config rule as returned by `describeConfigRules`.  Only the fields the
embedded logic reads are kept. -/
structure ConfigRule where
  ConfigRuleName : String
  Description : Option String
  Scope : Option Scope
deriving DecidableEq

/-- One element of `details.EvaluationResults`.  The embedded logic reads only
`ComplianceType`; resource-identifier fields are omitted. -/
structure EvaluationResult where
  ComplianceType : String
deriving DecidableEq

/-- The `describeConfigRules` response; `none` models an absent `ConfigRules`
field defaulted by `|| []`. -/
structure RulesResponse where
  ConfigRules : Option (List ConfigRule)
deriving DecidableEq

/-- The `getComplianceSummaryByConfigRule` response. -/
structure ComplianceResponse where
  ComplianceSummaryByConfigRule : Option (List ComplianceByRuleItem)
deriving DecidableEq

/-- Widget parameters (`event.params`) read by `processConfigData`.  `none`
models a JS-falsy field (absent, or the empty string for
`complianceStatus`). -/
structure Params where
  ruleNames : Option (List String)
  complianceStatus : Option String
  resourceTypes : Option (List String)
deriving DecidableEq

/-- A rule with its attached compliance data (the `{...rule, compliance}`
objects built at configRulesWidget.js lines 129-136). -/
structure ProcessedRule where
  rule : ConfigRule
  compliance : ComplianceCount
deriving DecidableEq

/-- The `summary` object of `processConfigData`'s return value
(configRulesWidget.js lines 140-151). -/
structure SummaryStats where
  total : Nat
  compliant : Nat
  nonCompliant : Nat
  insufficientData : Nat
deriving DecidableEq

/-- The return value of `processConfigData` (the `accountId` passthrough is
omitted). -/
structure ProcessedData where
  rules : List ProcessedRule
  summary : SummaryStats
deriving DecidableEq

/-- The zero compliance count synthesized for rules with no compliance data
(configRulesWidget.js lines 131-135). -/
def zeroCount : ComplianceCount :=
  { CompliantResourceCount := 0, NonCompliantResourceCount := 0, TotalResourceCount := 0 }

/-- The `ComplianceCount` extracted from one summary item, with `|| 0`
defaulting (configRulesWidget.js lines 73-77). -/
def summaryCountOf (item : ComplianceByRuleItem) : ComplianceCount :=
  { CompliantResourceCount := item.ComplianceSummary.CompliantResourceCount.getD 0
  , NonCompliantResourceCount := item.ComplianceSummary.NonCompliantResourceCount.getD 0
  , TotalResourceCount := item.ComplianceSummary.TotalResourceCount.getD 0 }

/-- The `compliance.forEach` loop building `complianceMap`
(configRulesWidget.js lines 71-78): each item assigns its counts at its rule
name, later items overwriting earlier ones. -/
def buildComplianceMap (compliance : List ComplianceByRuleItem) : String → Option ComplianceCount :=
  compliance.foldl
    (fun complianceMap item =>
      fun name => if name = item.ConfigRuleName then some (summaryCountOf item) else complianceMap name)
    (fun _ => none)

/-- The count derived from a rule's evaluation results (configRulesWidget.js
lines 83-85): compliant and non-compliant results are counted separately and
the total is the number of results. -/
def deriveCount (evaluationResults : List EvaluationResult) : ComplianceCount :=
  { CompliantResourceCount := (evaluationResults.filter (fun r => r.ComplianceType = "COMPLIANT")).length
  , NonCompliantResourceCount := (evaluationResults.filter (fun r => r.ComplianceType = "NON_COMPLIANT")).length
  , TotalResourceCount := evaluationResults.length }

/-- The `Object.keys(detailedComplianceData).forEach` loop
(configRulesWidget.js lines 81-95): for each fetched rule, if it has at least
one evaluation result, the derived count overwrites the map entry; otherwise
the map is left unchanged. -/
def applyDetailedComplianceData (complianceMap : String → Option ComplianceCount)
    (detailedComplianceData : List (String × List EvaluationResult)) : String → Option ComplianceCount :=
  detailedComplianceData.foldl
    (fun complianceMap entry =>
      let evaluationResults := entry.2
      if 0 < evaluationResults.length then
        fun name => if name = entry.1 then some (deriveCount evaluationResults) else complianceMap name
      else complianceMap)
    complianceMap

/-- The `complianceStatus` predicate (configRulesWidget.js lines 105-117): a
rule with no `complianceMap` entry is always rejected; otherwise the three
recognized status strings are tested, and any other status accepts. -/
def complianceStatusPred (complianceStatus : String) (complianceMap : String → Option ComplianceCount)
    (rule : ConfigRule) : Bool :=
  match complianceMap rule.ConfigRuleName with
  | none => false
  | some compliance =>
    if complianceStatus = "COMPLIANT" then
      compliance.NonCompliantResourceCount == 0 && decide (0 < compliance.TotalResourceCount)
    else if complianceStatus = "NON_COMPLIANT" then
      decide (0 < compliance.NonCompliantResourceCount)
    else if complianceStatus = "INSUFFICIENT_DATA" then
      compliance.TotalResourceCount == 0
    else
      true

/-- The `resourceTypes` predicate (configRulesWidget.js lines 121-125):
missing scope or missing `ComplianceResourceTypes` rejects; otherwise the rule
passes when some scoped type is in the filter list.  (In JS an empty
`ComplianceResourceTypes` array is truthy, so it reaches `.some`, which is
false on an empty array — the `some []` branch here gives the same result.) -/
def resourceTypesPred (resourceTypes : List String) (rule : ConfigRule) : Bool :=
  match rule.Scope with
  | none => false
  | some scope =>
    match scope.ComplianceResourceTypes with
    | none => false
    | some complianceResourceTypes =>
      complianceResourceTypes.any (fun t => resourceTypes.contains t)

/-- The three-stage filter chain of `processConfigData` (configRulesWidget.js
lines 97-126).  Note the `ruleNames` stage filters `rules` directly, as in the
source, and each guard mirrors the JS truthiness test. -/
def filterRules (params : Params) (complianceMap : String → Option ComplianceCount)
    (rules : List ConfigRule) : List ConfigRule :=
  let filteredRules := rules
  let filteredRules :=
    match params.ruleNames with
    | some ruleNames =>
      if 0 < ruleNames.length then
        rules.filter (fun rule => ruleNames.contains rule.ConfigRuleName)
      else filteredRules
    | none => filteredRules
  let filteredRules :=
    match params.complianceStatus with
    | some complianceStatus => filteredRules.filter (complianceStatusPred complianceStatus complianceMap)
    | none => filteredRules
  let filteredRules :=
    match params.resourceTypes with
    | some resourceTypes =>
      if 0 < resourceTypes.length then filteredRules.filter (resourceTypesPred resourceTypes)
      else filteredRules
    | none => filteredRules
  filteredRules

/-- Attaching compliance data to a filtered rule, with the synthesized zero
count for rules absent from the map (configRulesWidget.js lines 129-136). -/
def attachCompliance (complianceMap : String → Option ComplianceCount) (rule : ConfigRule) : ProcessedRule :=
  { rule := rule, compliance := (complianceMap rule.ConfigRuleName).getD zeroCount }

/-- The `summary` statistics of `processConfigData` (configRulesWidget.js
lines 140-151).  Note `insufficientData` tests only `TotalResourceCount === 0`. -/
def summaryStats (processedRules : List ProcessedRule) : SummaryStats :=
  { total := processedRules.length
  , compliant :=
      (processedRules.filter (fun rule =>
        rule.compliance.NonCompliantResourceCount == 0 && decide (0 < rule.compliance.TotalResourceCount))).length
  , nonCompliant :=
      (processedRules.filter (fun rule => decide (0 < rule.compliance.NonCompliantResourceCount))).length
  , insufficientData :=
      (processedRules.filter (fun rule => rule.compliance.TotalResourceCount == 0)).length }

/-- The body of `processConfigData` (configRulesWidget.js lines 66-154): build the summary
map, overlay detail-derived counts, filter, attach compliance, and compute the
summary statistics. -/
def processConfigData (rulesResponse : RulesResponse) (complianceResponse : ComplianceResponse)
    (params : Params) (detailedComplianceData : List (String × List EvaluationResult)) : ProcessedData :=
  let rules := rulesResponse.ConfigRules.getD []
  let compliance := complianceResponse.ComplianceSummaryByConfigRule.getD []
  let complianceMap := buildComplianceMap compliance
  let complianceMap := applyDetailedComplianceData complianceMap detailedComplianceData
  let filteredRules := filterRules params complianceMap rules
  let processedRules := filteredRules.map (attachCompliance complianceMap)
  { rules := processedRules, summary := summaryStats processedRules }

/-- The tri-state status text of `generateRuleItemHTML` (configRulesWidget.js
lines 356-373): defaults to Insufficient Data, overridden by Compliant or
Non-Compliant. -/
def ruleStatusText (compliance : ComplianceCount) : String :=
  let isCompliant :=
    compliance.NonCompliantResourceCount == 0 && decide (0 < compliance.TotalResourceCount)
  let isNonCompliant := decide (0 < compliance.NonCompliantResourceCount)
  if isCompliant then "Compliant"
  else if isNonCompliant then "Non-Compliant"
  else "Insufficient Data"

/-- The status text of `generateRuleSummaryItemHTML`
(configComplianceWidget.js lines 736-775): a missing compliance argument is
first replaced by the zero count, then the same tri-state logic applies. -/
def ruleSummaryStatusText (compliance : Option ComplianceCount) : String :=
  let compliance := compliance.getD zeroCount
  let isCompliant :=
    compliance.NonCompliantResourceCount == 0 && decide (0 < compliance.TotalResourceCount)
  let isNonCompliant := decide (0 < compliance.NonCompliantResourceCount)
  if isCompliant then "Compliant"
  else if isNonCompliant then "Non-Compliant"
  else "Insufficient Data"

/-- The account-level detail prefetch loop of the configRulesWidget handler
(configRulesWidget.js lines 33-49): for each configured rule name, if the rule
is in the catalog, fetch its evaluation results (`|| []` folded into the
reader); a fetch failure is caught and the loop continues with the next name.
The function is total: no failure propagates to the caller. -/
def buildDetailedComplianceData (fetch : String → Except String (List EvaluationResult))
    (rulesResponse : RulesResponse) : List String → List (String × List EvaluationResult)
  | [] => []
  | ruleName :: rest =>
    let ruleExists := (rulesResponse.ConfigRules.getD []).any (fun r => r.ConfigRuleName = ruleName)
    if ruleExists then
      match fetch ruleName with
      | Except.ok evaluationResults =>
        (ruleName, evaluationResults) :: buildDetailedComplianceData fetch rulesResponse rest
      | Except.error _ => buildDetailedComplianceData fetch rulesResponse rest
    else buildDetailedComplianceData fetch rulesResponse rest

/-- Parameters with no filter supplied (every field JS-falsy). -/
def noFilterParams : Params :=
  { ruleNames := none, complianceStatus := none, resourceTypes := none }

/-- Concrete detail mapping used to witness `detail_overrides_summary`. -/
def witnessDetails : List (String × List EvaluationResult) :=
  [("iam-password-policy", [⟨"NON_COMPLIANT"⟩, ⟨"NON_COMPLIANT"⟩, ⟨"COMPLIANT"⟩]),
   ("other-rule", [])]

/-- Concrete summary map used to witness `detail_overrides_summary`. -/
def witnessSummaryMap : String → Option ComplianceCount :=
  fun name => if name = "iam-password-policy" then some ⟨9, 0, 9⟩
    else if name = "other-rule" then some ⟨1, 2, 3⟩ else none

/-- A rule with no scope, used to witness the fail-closed behavior. -/
def unscopedRule : ConfigRule :=
  { ConfigRuleName := "iam-password-policy", Description := none, Scope := none }

/-- Parameters carrying only a one-element `resourceTypes` filter. -/
def resourceTypesOnlyParams : Params :=
  { ruleNames := none, complianceStatus := none, resourceTypes := some ["AWS::S3::Bucket"] }

/-- The single catalog rule of the bucket-overlap exhibit. -/
def overlapRule : ConfigRule :=
  { ConfigRuleName := "account-rule", Description := none, Scope := none }

/-- The summary entry of the bucket-overlap exhibit: one non-compliant
resource, zero total — the account-level shape the widgets are designed
around. -/
def overlapSummaryItem : ComplianceByRuleItem where
  ConfigRuleName := "account-rule"
  ComplianceSummary :=
    { CompliantResourceCount := some 0
    , NonCompliantResourceCount := some 1
    , TotalResourceCount := some 0 }

/-- A map holding one compliant rule, used to witness the amended C6. -/
def mappedComplianceMap : String → Option ComplianceCount :=
  fun name => if name = "rule-a" then some ⟨2, 0, 2⟩ else none

/-- The rule carried by `mappedComplianceMap`. -/
def mappedRule : ConfigRule := ⟨"rule-a", none, none⟩

/-- Parameters carrying only a `complianceStatus` filter. -/
def statusOnlyParams : Params :=
  { ruleNames := none, complianceStatus := some "INSUFFICIENT_DATA", resourceTypes := none }

/-- A catalog rule with no compliance data anywhere. -/
def ghostRule : ConfigRule := ⟨"ghost-rule", none, none⟩

/-- A detail reader that fails on the password-policy rule and returns no
results otherwise. -/
def failingFetch : String → Except String (List EvaluationResult) :=
  fun name => if name = "iam-password-policy" then Except.error "AccessDenied" else Except.ok []

/-- A detail reader that never fails, agreeing with `failingFetch` off the
password-policy rule. -/
def healthyFetch : String → Except String (List EvaluationResult) :=
  fun _ => Except.ok []

/-- The two-rule catalog used to witness the failure isolation. -/
def isolationRulesResponse : RulesResponse :=
  { ConfigRules := some [⟨"iam-password-policy", none, none⟩, ⟨"root-account-mfa-enabled", none, none⟩] }

/-- C1: the tri-state classification is Non-Compliant exactly when the
non-compliant count is positive, Compliant exactly when the non-compliant
count is zero and the total is positive, and Insufficient Data exactly when
both the total and the non-compliant count are zero; the summary-widget item
classification agrees with the rules-widget one. -/
theorem ruleStatusText_classification (c : ComplianceCount) :
    (ruleStatusText c = "Non-Compliant" ↔ 0 < c.NonCompliantResourceCount)
    ∧ (ruleStatusText c = "Compliant" ↔ c.NonCompliantResourceCount = 0 ∧ 0 < c.TotalResourceCount)
    ∧ (ruleStatusText c = "Insufficient Data" ↔ c.TotalResourceCount = 0 ∧ c.NonCompliantResourceCount = 0)
    ∧ ruleSummaryStatusText (some c) = ruleStatusText c := by
  obtain ⟨cc, nc, tc⟩ := c
  cases nc <;> cases tc <;> simp [ruleStatusText, ruleSummaryStatusText]

/-- Lookup in the summary map fold is unchanged at names no item assigns. -/
theorem buildComplianceMap_foldl_not_mem (items : List ComplianceByRuleItem)
    (m : String → Option ComplianceCount) (r : String)
    (h : ∀ item ∈ items, item.ConfigRuleName ≠ r) :
    (items.foldl
      (fun complianceMap item =>
        fun name => if name = item.ConfigRuleName then some (summaryCountOf item) else complianceMap name)
      m) r = m r := by
  induction items generalizing m with
  | nil => rfl
  | cons item rest ih =>
    simp only [List.foldl_cons]
    rw [ih _ (fun it hit => h it (List.mem_cons_of_mem item hit))]
    have hne : ¬ (r = item.ConfigRuleName) := by
      intro hr
      exact h item (List.mem_cons_self item rest) hr.symm
    simp only [if_neg hne]

/-- A rule name absent from every summary item has no `complianceMap` entry. -/
theorem buildComplianceMap_not_mem (items : List ComplianceByRuleItem) (r : String)
    (h : ∀ item ∈ items, item.ConfigRuleName ≠ r) :
    buildComplianceMap items r = none :=
  buildComplianceMap_foldl_not_mem items (fun _ => none) r h

/-- Lookup in the detail-overlay fold is unchanged at rule names the detail
mapping does not contain. -/
theorem applyDetails_foldl_not_mem (details : List (String × List EvaluationResult))
    (m : String → Option ComplianceCount) (r : String)
    (h : ∀ p ∈ details, p.1 ≠ r) :
    (details.foldl
      (fun complianceMap entry =>
        if 0 < entry.2.length then
          fun name => if name = entry.1 then some (deriveCount entry.2) else complianceMap name
        else complianceMap)
      m) r = m r := by
  induction details generalizing m with
  | nil => rfl
  | cons entry rest ih =>
    simp only [List.foldl_cons]
    rw [ih _ (fun p hp => h p (List.mem_cons_of_mem entry hp))]
    have hne : ¬ (r = entry.1) := by
      intro hr
      exact h entry (List.mem_cons_self entry rest) hr.symm
    by_cases hl : 0 < entry.2.length
    · simp only [if_pos hl, if_neg hne]
    · simp only [if_neg hl]

/-- Lookup after the detail-overlay loop is unchanged at rule names the detail
mapping does not contain. -/
theorem applyDetailedComplianceData_not_mem (m : String → Option ComplianceCount)
    (details : List (String × List EvaluationResult)) (r : String)
    (h : ∀ p ∈ details, p.1 ≠ r) :
    applyDetailedComplianceData m details r = m r :=
  applyDetails_foldl_not_mem details m r h

/-- C2: for a rule name carried by the detail mapping, a non-empty evaluation
list makes the reconciled count the detail-derived one (counts of COMPLIANT
and NON_COMPLIANT results, total = list length), overwriting whatever the
summary map held; an empty evaluation list leaves the summary map entry
unchanged. -/
theorem detail_overrides_summary (m : String → Option ComplianceCount)
    (details : List (String × List EvaluationResult))
    (hnd : (details.map Prod.fst).Nodup)
    (r : String) (results : List EvaluationResult)
    (hmem : (r, results) ∈ details) :
    applyDetailedComplianceData m details r =
      if 0 < results.length then some (deriveCount results) else m r := by
  induction details generalizing m with
  | nil => cases hmem
  | cons entry rest ih =>
    simp only [List.map_cons, List.nodup_cons] at hnd
    rcases List.mem_cons.mp hmem with heq | hrest
    · have hhead : entry = (r, results) := heq.symm
      subst hhead
      have hnot : ∀ p ∈ rest, p.1 ≠ r := by
        intro p hp hpr
        have hmm : p.1 ∈ rest.map Prod.fst := List.mem_map_of_mem Prod.fst hp
        rw [hpr] at hmm
        exact hnd.1 hmm
      have h1 : applyDetailedComplianceData m ((r, results) :: rest) r
          = (if 0 < results.length then
              (fun name => if name = r then some (deriveCount results) else m name)
            else m) r :=
        applyDetails_foldl_not_mem rest _ r hnot
      rw [h1]
      by_cases hl : 0 < results.length
      · simp [hl]
      · simp [hl]
    · have hne : entry.1 ≠ r := by
        intro h1
        have hmm : (r, results).1 ∈ rest.map Prod.fst := List.mem_map_of_mem Prod.fst hrest
        rw [← h1] at hmm
        exact hnd.1 hmm
      have hacc := ih (if 0 < entry.2.length then
          (fun name => if name = entry.1 then some (deriveCount entry.2) else m name)
        else m) hnd.2 hrest
      have h2 : (if 0 < entry.2.length then
          (fun name => if name = entry.1 then some (deriveCount entry.2) else m name)
        else m) r = m r := by
        by_cases hl : 0 < entry.2.length
        · simp only [if_pos hl, if_neg (show ¬ r = entry.1 from fun hr => hne hr.symm)]
        · simp only [if_neg hl]
      have h3 : applyDetailedComplianceData m ((entry.1, entry.2) :: rest) r
          = if 0 < results.length then some (deriveCount results) else m r := by
        rw [show applyDetailedComplianceData m ((entry.1, entry.2) :: rest) r
            = applyDetailedComplianceData (if 0 < entry.2.length then
                (fun name => if name = entry.1 then some (deriveCount entry.2) else m name)
              else m) rest r from rfl]
        rw [hacc, h2]
      simpa using h3

/-- Witness for C2: the non-empty detail list replaces the summary count, and
the empty detail list leaves the summary count in place. -/
theorem detail_overrides_summary_witness :
    applyDetailedComplianceData witnessSummaryMap witnessDetails "iam-password-policy" =
      (if 0 < ([⟨"NON_COMPLIANT"⟩, ⟨"NON_COMPLIANT"⟩, ⟨"COMPLIANT"⟩] : List EvaluationResult).length then
        some (deriveCount [⟨"NON_COMPLIANT"⟩, ⟨"NON_COMPLIANT"⟩, ⟨"COMPLIANT"⟩]) else
          witnessSummaryMap "iam-password-policy")
    ∧ applyDetailedComplianceData witnessSummaryMap witnessDetails "other-rule" =
      (if 0 < ([] : List EvaluationResult).length then some (deriveCount []) else
        witnessSummaryMap "other-rule") :=
  ⟨detail_overrides_summary witnessSummaryMap witnessDetails (by decide) "iam-password-policy" _
      (by decide),
   detail_overrides_summary witnessSummaryMap witnessDetails (by decide) "other-rule" _
      (by decide)⟩

/-- C10 helper: the COMPLIANT and NON_COMPLIANT result counts together never
exceed the number of results (a result has one compliance type, and
NOT_APPLICABLE or other types count toward neither bucket). -/
theorem length_filter_compliant_add_noncompliant_le (l : List EvaluationResult) :
    (l.filter (fun r => r.ComplianceType = "COMPLIANT")).length
      + (l.filter (fun r => r.ComplianceType = "NON_COMPLIANT")).length ≤ l.length := by
  induction l with
  | nil => simp
  | cons a l ih =>
    by_cases h1 : a.ComplianceType = "COMPLIANT"
    · have h2 : ¬ a.ComplianceType = "NON_COMPLIANT" := by
        rw [h1]; decide
      simp only [List.filter_cons, h1, h2]
      simp only [List.length_cons]
      simp
      omega
    · by_cases h2 : a.ComplianceType = "NON_COMPLIANT"
      · simp only [List.filter_cons, h1, h2]
        simp only [List.length_cons]
        simp
        omega
      · simp only [List.filter_cons, h1, h2]
        simp only [List.length_cons]
        simp
        omega

/-- C10: every detail-derived count satisfies compliant + non-compliant ≤
total and compliant ≤ total (NOT_APPLICABLE results are counted only in the
total). -/
theorem deriveCount_bounds (evaluationResults : List EvaluationResult) :
    (deriveCount evaluationResults).CompliantResourceCount
        + (deriveCount evaluationResults).NonCompliantResourceCount
      ≤ (deriveCount evaluationResults).TotalResourceCount
    ∧ (deriveCount evaluationResults).CompliantResourceCount
      ≤ (deriveCount evaluationResults).TotalResourceCount := by
  have h := length_filter_compliant_add_noncompliant_le evaluationResults
  constructor
  · exact h
  · exact le_trans (Nat.le_add_right _ _) h

/-- Each guarded filter stage of `filterRules` returns a sublist of its
input. -/
theorem guardedFilterStage_sublist (o : Option (List String)) (l : List ConfigRule)
    (pred : List String → ConfigRule → Bool) :
    (match o with
     | some xs => if 0 < xs.length then l.filter (pred xs) else l
     | none => l).Sublist l := by
  cases o with
  | none => exact List.Sublist.refl l
  | some xs =>
    show (if 0 < xs.length then l.filter (pred xs) else l).Sublist l
    by_cases h : 0 < xs.length
    · rw [if_pos h]; exact List.filter_sublist l
    · rw [if_neg h]

/-- The `complianceStatus` stage of `filterRules` returns a sublist of its
input. -/
theorem statusStage_sublist (o : Option String) (complianceMap : String → Option ComplianceCount)
    (l : List ConfigRule) :
    (match o with
     | some complianceStatus => l.filter (complianceStatusPred complianceStatus complianceMap)
     | none => l).Sublist l := by
  cases o with
  | none => exact List.Sublist.refl l
  | some s =>
    show (l.filter (complianceStatusPred s complianceMap)).Sublist l
    exact List.filter_sublist l

/-- C4: the filter chain output is a subsequence of the input rule list —
every output rule occurs in the input, in the same relative order, and no
rule occurs more often in the output than in the input.  (The embedding is a
pure function, so the input list is unchanged by construction.) -/
theorem filterRules_sublist (params : Params) (complianceMap : String → Option ComplianceCount)
    (rules : List ConfigRule) :
    (filterRules params complianceMap rules).Sublist rules
    ∧ ∀ rule : ConfigRule, (filterRules params complianceMap rules).count rule ≤ rules.count rule := by
  have key : (filterRules params complianceMap rules).Sublist rules :=
    (guardedFilterStage_sublist params.resourceTypes _ resourceTypesPred).trans
      ((statusStage_sublist params.complianceStatus complianceMap _).trans
        (guardedFilterStage_sublist params.ruleNames rules
          (fun ruleNames rule => ruleNames.contains rule.ConfigRuleName)))
  exact ⟨key, fun rule => key.count_le rule⟩

/-- A rule in the filter output passes the `complianceStatus` predicate when
that filter was supplied. -/
theorem mem_filterRules_statusPred (params : Params) (s : String)
    (complianceMap : String → Option ComplianceCount) (rules : List ConfigRule) (rule : ConfigRule)
    (hs : params.complianceStatus = some s)
    (hmem : rule ∈ filterRules params complianceMap rules) :
    complianceStatusPred s complianceMap rule = true := by
  obtain ⟨rn, cs, rt⟩ := params
  dsimp only at hs
  subst hs
  unfold filterRules at hmem
  cases rt with
  | none =>
    dsimp only at hmem
    exact (List.mem_filter.mp hmem).2
  | some resourceTypes =>
    dsimp only at hmem
    by_cases hlen : 0 < resourceTypes.length
    · rw [if_pos hlen] at hmem
      exact (List.mem_filter.mp (List.mem_filter.mp hmem).1).2
    · rw [if_neg hlen] at hmem
      exact (List.mem_filter.mp hmem).2

/-- A rule in the filter output passes the `resourceTypes` predicate when a
non-empty `resourceTypes` filter was supplied. -/
theorem mem_filterRules_resourceTypesPred (params : Params) (rt : List String)
    (complianceMap : String → Option ComplianceCount) (rules : List ConfigRule) (rule : ConfigRule)
    (hp : params.resourceTypes = some rt) (hlen : 0 < rt.length)
    (hmem : rule ∈ filterRules params complianceMap rules) :
    resourceTypesPred rt rule = true := by
  obtain ⟨rn, cs, rt'⟩ := params
  dsimp only at hp
  subst hp
  unfold filterRules at hmem
  dsimp only at hmem
  rw [if_pos hlen] at hmem
  exact (List.mem_filter.mp hmem).2

/-- C5: with a non-empty `resourceTypes` filter, a rule whose scope is absent,
whose scope has no `ComplianceResourceTypes`, or whose resource-type list is
empty never appears in the filter output; a rule with an explicit resource-type
list passes the `resourceTypes` predicate exactly when one of its types is in
the filter list. -/
theorem resourceTypes_filter_fails_closed (params : Params) (filterTypes : List String)
    (complianceMap : String → Option ComplianceCount) (rules : List ConfigRule) (rule : ConfigRule)
    (hp : params.resourceTypes = some filterTypes) (hlen : 0 < filterTypes.length) :
    ((rule.Scope = none
        ∨ ∃ s, rule.Scope = some s
            ∧ (s.ComplianceResourceTypes = none ∨ s.ComplianceResourceTypes = some [])) →
      rule ∉ filterRules params complianceMap rules)
    ∧ ∀ scope types, rule.Scope = some scope → scope.ComplianceResourceTypes = some types →
        (resourceTypesPred filterTypes rule = true ↔ ∃ t ∈ types, t ∈ filterTypes) := by
  constructor
  · intro hscope hmem
    have hpred := mem_filterRules_resourceTypesPred params filterTypes complianceMap rules rule hp hlen hmem
    have hfalse : resourceTypesPred filterTypes rule = false := by
      rcases hscope with h | ⟨s, hs, hcrt⟩
      · unfold resourceTypesPred
        rw [h]
      · unfold resourceTypesPred
        rw [hs]
        dsimp only
        rcases hcrt with h2 | h2
        · rw [h2]
        · rw [h2]
          exact rfl
    rw [hfalse] at hpred
    cases hpred
  · intro scope types hs ht
    unfold resourceTypesPred
    rw [hs]
    dsimp only
    rw [ht]
    dsimp only
    simp

/-- Witness for C5 at a concrete unscoped rule and a one-element filter. -/
theorem resourceTypes_filter_fails_closed_witness :
    ((unscopedRule.Scope = none
        ∨ ∃ s, unscopedRule.Scope = some s
            ∧ (s.ComplianceResourceTypes = none ∨ s.ComplianceResourceTypes = some [])) →
      unscopedRule ∉ filterRules resourceTypesOnlyParams (fun _ => none) [unscopedRule])
    ∧ ∀ scope types, unscopedRule.Scope = some scope → scope.ComplianceResourceTypes = some types →
        (resourceTypesPred ["AWS::S3::Bucket"] unscopedRule = true ↔
          ∃ t ∈ types, t ∈ ["AWS::S3::Bucket"]) :=
  resourceTypes_filter_fails_closed resourceTypesOnlyParams ["AWS::S3::Bucket"] (fun _ => none)
    [unscopedRule] unscopedRule rfl (by decide)

/-- C3 bug exhibit: a catalog with one rule whose summary entry reports one
non-compliant resource and a zero total is counted in both the non-compliant
and the insufficient-data buckets of the rules-widget summary statistics,
while the same widget displays it as Non-Compliant; the three buckets sum to
2 for a single processed rule. -/
theorem summary_buckets_overlap :
    (processConfigData { ConfigRules := some [overlapRule] }
        { ComplianceSummaryByConfigRule := some [overlapSummaryItem] }
        noFilterParams []).summary
      = { total := 1, compliant := 0, nonCompliant := 1, insufficientData := 1 }
    ∧ ruleStatusText ⟨0, 1, 0⟩ = "Non-Compliant"
    ∧ 0 + 1 + 1 ≠ 1 :=
  ⟨by decide, by decide, by decide⟩

/-- C6 counterexample: with a mapped count of (0 compliant, 1 non-compliant,
0 total) the rule passes the INSUFFICIENT_DATA status filter although its
displayed classification is Non-Compliant; and a rule with no map entry fails
the INSUFFICIENT_DATA status filter although it is displayed as Insufficient
Data. -/
theorem insufficient_filter_mismatch :
    complianceStatusPred "INSUFFICIENT_DATA"
        (fun name => if name = "account-rule" then some ⟨0, 1, 0⟩ else none)
        ⟨"account-rule", none, none⟩ = true
    ∧ ruleStatusText ⟨0, 1, 0⟩ = "Non-Compliant"
    ∧ complianceStatusPred "INSUFFICIENT_DATA" (fun _ => none) ⟨"unmapped-rule", none, none⟩ = false
    ∧ ruleStatusText (attachCompliance (fun _ => none) ⟨"unmapped-rule", none, none⟩).compliance
      = "Insufficient Data" :=
  ⟨by decide, by decide, by decide, by decide⟩

/-- C6 (amended): for a rule present in the reconciled map, the COMPLIANT and
NON_COMPLIANT status filters pass exactly when the displayed classification
matches, while the INSUFFICIENT_DATA filter passes exactly when the total
count is zero (which also admits rules displayed as Non-Compliant). -/
theorem complianceStatusPred_mapped_iff (complianceMap : String → Option ComplianceCount)
    (rule : ConfigRule) (c : ComplianceCount)
    (h : complianceMap rule.ConfigRuleName = some c) :
    (complianceStatusPred "COMPLIANT" complianceMap rule = true ↔ ruleStatusText c = "Compliant")
    ∧ (complianceStatusPred "NON_COMPLIANT" complianceMap rule = true ↔
        ruleStatusText c = "Non-Compliant")
    ∧ (complianceStatusPred "INSUFFICIENT_DATA" complianceMap rule = true ↔
        c.TotalResourceCount = 0) := by
  obtain ⟨cc, nc, tc⟩ := c
  unfold complianceStatusPred ruleStatusText
  rw [h]
  dsimp only
  cases nc <;> cases tc <;> simp

/-- Witness for the amended C6 at a concrete mapped rule. -/
theorem complianceStatusPred_mapped_iff_witness :
    (complianceStatusPred "COMPLIANT" mappedComplianceMap mappedRule = true ↔
        ruleStatusText ⟨2, 0, 2⟩ = "Compliant")
    ∧ (complianceStatusPred "NON_COMPLIANT" mappedComplianceMap mappedRule = true ↔
        ruleStatusText ⟨2, 0, 2⟩ = "Non-Compliant")
    ∧ (complianceStatusPred "INSUFFICIENT_DATA" mappedComplianceMap mappedRule = true ↔
        (⟨2, 0, 2⟩ : ComplianceCount).TotalResourceCount = 0) :=
  complianceStatusPred_mapped_iff mappedComplianceMap mappedRule ⟨2, 0, 2⟩ rfl

/-- C9: a rule with no entry in the reconciled map never appears in the filter
output when any `complianceStatus` value is supplied, yet the processed entry
it would receive carries the synthesized zero count and is displayed as
Insufficient Data. -/
theorem unmapped_rule_excluded (params : Params) (status : String)
    (complianceMap : String → Option ComplianceCount) (rules : List ConfigRule) (rule : ConfigRule)
    (h : complianceMap rule.ConfigRuleName = none)
    (hs : params.complianceStatus = some status) :
    rule ∉ filterRules params complianceMap rules
    ∧ (attachCompliance complianceMap rule).compliance = zeroCount
    ∧ ruleStatusText (attachCompliance complianceMap rule).compliance = "Insufficient Data" := by
  have hzero : (attachCompliance complianceMap rule).compliance = zeroCount := by
    unfold attachCompliance
    rw [h]
    rfl
  refine ⟨?_, hzero, ?_⟩
  · intro hmem
    have hpred := mem_filterRules_statusPred params status complianceMap rules rule hs hmem
    have hfalse : complianceStatusPred status complianceMap rule = false := by
      unfold complianceStatusPred
      rw [h]
    rw [hfalse] at hpred
    cases hpred
  · rw [hzero]
    rfl

/-- Witness for C9 at a concrete unmapped rule. -/
theorem unmapped_rule_excluded_witness :
    ghostRule ∉ filterRules statusOnlyParams (fun _ => none) [ghostRule]
    ∧ (attachCompliance (fun _ => none) ghostRule).compliance = zeroCount
    ∧ ruleStatusText (attachCompliance (fun _ => none) ghostRule).compliance
      = "Insufficient Data" :=
  unmapped_rule_excluded statusOnlyParams "INSUFFICIENT_DATA" (fun _ => none) [ghostRule]
    ghostRule rfl rfl

/-- C7: a catalog rule absent from both the summary data and the detail
mapping receives the synthesized zero count in the processed output (with no
filters supplied) and is displayed as Insufficient Data. -/
theorem absent_rule_zero_count (rulesResponse : RulesResponse)
    (complianceResponse : ComplianceResponse)
    (details : List (String × List EvaluationResult)) (rule : ConfigRule)
    (hr : rule ∈ rulesResponse.ConfigRules.getD [])
    (hsum : ∀ item ∈ complianceResponse.ComplianceSummaryByConfigRule.getD [],
      item.ConfigRuleName ≠ rule.ConfigRuleName)
    (hdet : ∀ p ∈ details, p.1 ≠ rule.ConfigRuleName) :
    ProcessedRule.mk rule zeroCount
        ∈ (processConfigData rulesResponse complianceResponse noFilterParams details).rules
    ∧ ruleStatusText zeroCount = "Insufficient Data" := by
  have hmap : applyDetailedComplianceData
      (buildComplianceMap (complianceResponse.ComplianceSummaryByConfigRule.getD []))
      details rule.ConfigRuleName = none := by
    rw [applyDetailedComplianceData_not_mem _ details _ hdet]
    exact buildComplianceMap_not_mem _ _ hsum
  constructor
  · have hatt : attachCompliance
        (applyDetailedComplianceData
          (buildComplianceMap (complianceResponse.ComplianceSummaryByConfigRule.getD []))
          details) rule = ProcessedRule.mk rule zeroCount := by
      unfold attachCompliance
      rw [hmap]
      rfl
    have hmm : attachCompliance
        (applyDetailedComplianceData
          (buildComplianceMap (complianceResponse.ComplianceSummaryByConfigRule.getD []))
          details) rule
        ∈ (processConfigData rulesResponse complianceResponse noFilterParams details).rules := by
      show attachCompliance
          (applyDetailedComplianceData
            (buildComplianceMap (complianceResponse.ComplianceSummaryByConfigRule.getD []))
            details) rule
          ∈ (rulesResponse.ConfigRules.getD []).map (attachCompliance
            (applyDetailedComplianceData
              (buildComplianceMap (complianceResponse.ComplianceSummaryByConfigRule.getD []))
              details))
      exact List.mem_map_of_mem _ hr
    rw [hatt] at hmm
    exact hmm
  · rfl

/-- Witness for C7: a one-rule catalog with empty summary and detail data. -/
theorem absent_rule_zero_count_witness :
    ProcessedRule.mk ghostRule zeroCount
        ∈ (processConfigData ⟨some [ghostRule]⟩ ⟨some []⟩ noFilterParams []).rules
    ∧ ruleStatusText zeroCount = "Insufficient Data" :=
  absent_rule_zero_count ⟨some [ghostRule]⟩ ⟨some []⟩ [] ghostRule (by decide) (by decide)
    (by decide)

/-- C8: if the evaluation-detail read fails for one account-level rule name,
the prefetch loop still processes every other name, the failing rule simply
has no detail entry, and the processed output equals the output obtained with
that rule's detail data absent; the loop is a total function, so no failure
propagates to the caller. -/
theorem detail_failure_isolation (fetch g : String → Except String (List EvaluationResult))
    (rulesResponse : RulesResponse) (accountLevelRules : List String) (r : String) (e : String)
    (hf : fetch r = Except.error e)
    (hg : ∀ n, n ≠ r → g n = fetch n) :
    buildDetailedComplianceData fetch rulesResponse accountLevelRules
      = (buildDetailedComplianceData g rulesResponse accountLevelRules).filter (fun p => p.1 ≠ r)
    ∧ ∀ (complianceResponse : ComplianceResponse) (params : Params),
        processConfigData rulesResponse complianceResponse params
            (buildDetailedComplianceData fetch rulesResponse accountLevelRules)
          = processConfigData rulesResponse complianceResponse params
            ((buildDetailedComplianceData g rulesResponse accountLevelRules).filter
              (fun p => p.1 ≠ r)) := by
  have key : buildDetailedComplianceData fetch rulesResponse accountLevelRules
      = (buildDetailedComplianceData g rulesResponse accountLevelRules).filter
        (fun p => p.1 ≠ r) := by
    induction accountLevelRules with
    | nil => rfl
    | cons ruleName rest ih =>
      simp only [buildDetailedComplianceData]
      by_cases hex :
          ((rulesResponse.ConfigRules.getD []).any (fun cr => cr.ConfigRuleName = ruleName)) = true
      · rw [if_pos hex, if_pos hex]
        by_cases hnr : ruleName = r
        · subst hnr
          rw [hf]
          cases hgr : g ruleName with
          | ok l =>
            dsimp only
            have hp : (decide (¬ (ruleName, l).1 = ruleName)) = false := by
              simp
            rw [List.filter_cons]
            rw [hp]
            rw [if_neg (by decide)]
            exact ih
          | error s =>
            exact ih
        · rw [← hg ruleName hnr]
          cases hgr : g ruleName with
          | ok l =>
            dsimp only
            have hp : (decide (¬ (ruleName, l).1 = r)) = true := by
              simp [hnr]
            rw [List.filter_cons]
            rw [hp]
            rw [if_pos rfl]
            rw [ih]
          | error s =>
            exact ih
      · rw [if_neg hex, if_neg hex]
        exact ih
  refine ⟨key, fun complianceResponse params => ?_⟩
  rw [key]

/-- Witness for C8: the failing fetch on a two-rule catalog yields exactly the
healthy run with the failing rule's entry removed. -/
theorem detail_failure_isolation_witness :
    buildDetailedComplianceData failingFetch isolationRulesResponse
        ["iam-password-policy", "root-account-mfa-enabled"]
      = (buildDetailedComplianceData healthyFetch isolationRulesResponse
          ["iam-password-policy", "root-account-mfa-enabled"]).filter
        (fun p => p.1 ≠ "iam-password-policy")
    ∧ ∀ (complianceResponse : ComplianceResponse) (params : Params),
        processConfigData isolationRulesResponse complianceResponse params
            (buildDetailedComplianceData failingFetch isolationRulesResponse
              ["iam-password-policy", "root-account-mfa-enabled"])
          = processConfigData isolationRulesResponse complianceResponse params
            ((buildDetailedComplianceData healthyFetch isolationRulesResponse
                ["iam-password-policy", "root-account-mfa-enabled"]).filter
              (fun p => p.1 ≠ "iam-password-policy")) :=
  detail_failure_isolation failingFetch healthyFetch isolationRulesResponse
    ["iam-password-policy", "root-account-mfa-enabled"] "iam-password-policy" "AccessDenied"
    rfl (fun n hn => by simp [healthyFetch, failingFetch, hn])

end ConfigWidgets
